import Mathlib

/-!
Shallow embedding of the UDF engine of `libertem/udf/base.py` (LiberTEM),
together with proofs of properties of its specification.

Machine-level values (numpy dtypes, arrays, CUDA device ids) are modelled
concretely: dtypes as a small inductive universe with numpy's promotion and
safe-casting rules, arrays as dtype-tagged lists of integers, the process-wide
CUDA device id as a natural number threaded through explicitly.  Fallible
Python code (raising exceptions) is modelled with `Except`.
-/

namespace LiberTEM

/-- Model of the numpy dtype universe used by the engine: the numeric kinds
bool, signed integer, float and complex at the widths that occur in the
source and its documentation. -/
inductive DType where
  | bool
  | int8
  | int16
  | int32
  | int64
  | float16
  | float32
  | float64
  | complex64
  | complex128
deriving DecidableEq, Repr, Fintype

/-- Kind rank of a dtype: bool < int < float < complex, matching numpy's
kind ordering used by `numpy.result_type`. -/
def DType.kindRank : DType → Nat
  | .bool => 0
  | .int8 | .int16 | .int32 | .int64 => 1
  | .float16 | .float32 | .float64 => 2
  | .complex64 | .complex128 => 3

/-- Bit width of a dtype. -/
def DType.bits : DType → Nat
  | .bool => 8
  | .int8 => 8
  | .int16 => 16
  | .int32 => 32
  | .int64 => 64
  | .float16 => 16
  | .float32 => 32
  | .float64 => 64
  | .complex64 => 64
  | .complex128 => 128

/-- The smallest float bit width that can hold every value of a signed
integer of the given bit width, capped at 64 as numpy does
(int8 -> float16, int16 -> float32, int32 -> float64, int64 -> float64). -/
def minFloatBitsForInt (intBits : Nat) : Nat :=
  min (2 * intBits) 64

/-- Integer dtype of the given bit width. -/
def intOfBits (b : Nat) : DType :=
  if b ≤ 8 then .int8 else if b ≤ 16 then .int16 else if b ≤ 32 then .int32 else .int64

/-- Float dtype of the given bit width. -/
def floatOfBits (b : Nat) : DType :=
  if b ≤ 16 then .float16 else if b ≤ 32 then .float32 else .float64

/-- Complex dtype of the given bit width. -/
def complexOfBits (b : Nat) : DType :=
  if b ≤ 64 then .complex64 else .complex128

/-- Model of `numpy.result_type` (equivalently `numpy.promote_types`) on the
`DType` universe, restricted to dtype arguments: bool is neutral, same-kind
promotion widens to the larger width, and mixed-kind promotion picks the
smallest dtype of the higher kind that can represent both operands. -/
def result_type (a b : DType) : DType :=
  if a = .bool then b
  else if b = .bool then a
  else if a.kindRank = b.kindRank then
    (if a.bits ≤ b.bits then b else a)
  else
    -- order the two operands by kind
    let lo := if a.kindRank ≤ b.kindRank then a else b
    let hi := if a.kindRank ≤ b.kindRank then b else a
    if hi.kindRank = 2 then
      -- int combined with float
      floatOfBits (max hi.bits (minFloatBitsForInt lo.bits))
    else
      -- int or float combined with complex
      let loFloatBits := if lo.kindRank = 1 then minFloatBitsForInt lo.bits else lo.bits
      complexOfBits (max hi.bits (2 * loFloatBits))

/-- Model of `numpy.can_cast(from_, to_, casting=safe)` on the `DType`
universe: a cast is safe when the target can represent every value of the
source (bool casts to everything; same kind requires a width at least as
large; int to float requires twice the width, capped by numpy at the float64
check which fails for int64; int to complex requires four times the width;
float to complex requires twice the width; no downward kind cast is safe). -/
def can_cast (a b : DType) : Bool :=
  if a = .bool then true
  else if a.kindRank = b.kindRank then a.bits ≤ b.bits
  else if a.kindRank = 1 ∧ b.kindRank = 2 then 2 * a.bits ≤ b.bits
  else if a.kindRank = 1 ∧ b.kindRank = 3 then 4 * a.bits ≤ b.bits
  else if a.kindRank = 2 ∧ b.kindRank = 3 then 2 * a.bits ≤ b.bits
  else false

/-- Buffer kinds of `BufferWrapper` declarations (`kind` in the source). -/
inductive BufferKind where
  | nav
  | sig
  | single
deriving DecidableEq, Repr

/-- The declaration of one result buffer, as returned by
`UDF.get_result_buffers`: its kind and dtype (shapes are irrelevant for the
claims about merging). -/
structure BufferDecl where
  kind : BufferKind
  dtype : DType
deriving DecidableEq, Repr

/-- Model of a numpy array as it appears in merge: a dtype together with its
flat contents. -/
structure NArray where
  dtype : DType
  data : List Int
deriving DecidableEq, Repr

/-- Python exceptions raised on the merge path. -/
inductive MergeErr where
  | notImplementedErr
  | typeErr
  | keyErr
deriving DecidableEq, Repr

/-- `UDF.requires_custom_merge` (base.py lines 610-621): true when any buffer
returned by `get_result_buffers` has a kind other than nav. -/
def requires_custom_merge (bufs : List (String × BufferDecl)) : Bool :=
  bufs.any (fun kb => decide (kb.2.kind ≠ BufferKind.nav))

/-- `check_cast` (base.py lines 772-775): raises TypeError unless
`np.can_cast(fromvar.dtype, tovar.dtype, casting=safe)`. -/
def check_cast (fromvar tovar : NArray) : Except MergeErr Unit :=
  if can_cast fromvar.dtype tovar.dtype then Except.ok () else Except.error MergeErr.typeErr

/-- The loop body of the default `UDF.merge` (base.py lines 652-654):
`for k in dest: check_cast(dest[k], src[k]); dest[k][:] = src[k]`.
Mutation of `dest` is modelled functionally; `src[k]` raises KeyError when
`k` is absent from `src`. -/
def merge_loop (dest src : List (String × NArray)) : Except MergeErr (List (String × NArray)) :=
  match dest with
  | [] => Except.ok []
  | (k, d) :: rest =>
    match src.lookup k with
    | none => Except.error MergeErr.keyErr
    | some s =>
      match check_cast d s with
      | Except.error e => Except.error e
      | Except.ok _ =>
        match merge_loop rest src with
        | Except.ok out => Except.ok ((k, NArray.mk d.dtype s.data) :: out)
        | Except.error e => Except.error e

/-- The default `UDF.merge` (base.py lines 623-654): raises
NotImplementedError when the UDF requires a custom merge, otherwise performs
the checked elementwise copy over every key of `dest`. -/
def merge (bufs : List (String × BufferDecl)) (dest src : List (String × NArray)) :
    Except MergeErr (List (String × NArray)) :=
  if requires_custom_merge bufs then
    Except.error MergeErr.notImplementedErr
  else
    merge_loop dest src

/-- The elementwise copy as the spec words it: for every key of dest,
`dest[k][:] = src[k]` (each dest entry keeps its dtype and takes the data of
the src entry of the same name). -/
def spec_copy (dest src : List (String × NArray)) : List (String × NArray) :=
  dest.map (fun kd => (kd.1, NArray.mk kd.2.dtype ((src.lookup kd.1).getD kd.2).data))

/-- Flat nav-shaped auxiliary data of one `AuxBufferWrapper` parameter. -/
structure AuxBuffer where
  data : List Int
deriving DecidableEq, Repr

/-- Model of one UDF instance: the values of its declaration methods
(`get_backends`, `get_preferred_input_dtype`, `get_result_buffers`) together
with its aux parameters and which of the `process_*` methods the class
declares. -/
structure UDFModel where
  backends : List String
  preferred_input_dtype : DType
  result_buffers : List (String × BufferDecl)
  params : List (String × AuxBuffer)
  hasTile : Bool
  hasFrame : Bool
  hasPartition : Bool
deriving DecidableEq, Repr

/-- `UDFBase.get_method` (base.py lines 486-495): picks `process_tile`
first, then `process_frame`, then `process_partition`, and raises TypeError
only when none is declared. -/
def get_method (u : UDFModel) : Except String String :=
  if u.hasTile then Except.ok "tile"
  else if u.hasFrame then Except.ok "frame"
  else if u.hasPartition then Except.ok "partition"
  else Except.error "UDF should implement one of the process methods"

/-- The loop of `UDFRunner._udf_lists` for a cuda worker (base.py lines
1036-1044): a UDF whose backends contain cuda goes to the numpy (host) list,
otherwise one whose backends contain cupy goes to the cupy (device) list,
otherwise ValueError. -/
def udf_lists_cuda : List UDFModel → Except String (List UDFModel × List UDFModel)
  | [] => Except.ok ([], [])
  | u :: rest =>
    if "cuda" ∈ u.backends then
      match udf_lists_cuda rest with
      | Except.ok (ns, cs) => Except.ok (u :: ns, cs)
      | Except.error e => Except.error e
    else if "cupy" ∈ u.backends then
      match udf_lists_cuda rest with
      | Except.ok (ns, cs) => Except.ok (ns, u :: cs)
      | Except.error e => Except.error e
    else
      Except.error "UDF backends are not supported on CUDA"

/-- `UDFRunner._udf_lists` (base.py lines 1032-1051): split the UDF set into
(numpy_udfs, cupy_udfs) by worker device class.  The `assert` on the cpu
path is modelled as an error. -/
def udf_lists (device_class : String) (udfs : List UDFModel) :
    Except String (List UDFModel × List UDFModel) :=
  if device_class = "cuda" then
    udf_lists_cuda udfs
  else if device_class = "cpu" then
    if udfs.all (fun u => decide ("numpy" ∈ u.backends)) then
      Except.ok (udfs, [])
    else
      Except.error "assertion failed: not all UDFs support numpy"
  else
    Except.error "Unknown device class, supported are cpu and cuda"

/-- The narrowed backend set of `UDFTask.get_resources` (base.py lines
868-877): intersection of the UDFs' backend sets, further intersected with
the externally specified backends when given. -/
def narrowed_backends (u0 : UDFModel) (rest : List UDFModel) (limit : Option (List String)) :
    Finset String :=
  let inter := ((u0 :: rest).map (fun u => u.backends.toFinset)).foldl (· ∩ ·)
    u0.backends.toFinset
  match limit with
  | some l => l.toFinset ∩ inter
  | none => inter

/-- `UDFTask.get_resources` (base.py lines 862-894): resolves the narrowed
backend intersection to a Dask resource request, raising ValueError for an
empty intersection (and for an intersection with no known label). -/
def get_resources (udfs : List UDFModel) (limit : Option (List String)) :
    Except String (List (String × Nat)) :=
  match udfs with
  | [] => Except.error "IndexError: no UDFs"
  | u0 :: rest =>
    let backends := narrowed_backends u0 rest limit
    if backends = ∅ then
      Except.error "There is no common supported UDF backend"
    else if "numpy" ∈ backends ∧ ("cupy" ∈ backends ∨ "cuda" ∈ backends) then
      Except.ok [("compute", 1)]
    else if "numpy" ∈ backends then
      Except.ok [("CPU", 1), ("compute", 1)]
    else if "cupy" ∈ backends ∨ "cuda" ∈ backends then
      Except.ok [("CUDA", 1), ("compute", 1)]
    else
      Except.error "UDF backends are unsupported"

/-- `UDFRunner._get_dtype` (base.py lines 902-909): starting from the given
dtype, fold `np.result_type(udf.get_preferred_input_dtype(), tmp_dtype)`
over the UDFs. -/
def _get_dtype (udfs : List UDFModel) (dtype : DType) : DType :=
  udfs.foldl (fun tmp_dtype u => result_type u.preferred_input_dtype tmp_dtype) dtype

/-- The fields of `UDFMeta` relevant to the dtype claims. -/
structure UDFMetaModel where
  dataset_dtype : DType
  input_dtype : DType
  device_class : String
deriving DecidableEq, Repr

/-- The meta built by `UDFRunner._init_udfs` per partition (base.py lines
911-922): its input dtype is `self._get_dtype(partition.dtype)`. -/
def _init_udfs_meta (udfs : List UDFModel) (partition_dtype : DType)
    (device_class : String) : UDFMetaModel :=
  { dataset_dtype := partition_dtype
    input_dtype := _get_dtype udfs partition_dtype
    device_class := device_class }

/-- The meta built by `UDFRunner._prepare_run_for_dataset` at dispatch setup
(base.py lines 1096-1103): its input dtype is `self._get_dtype(dataset.dtype)`. -/
def _prepare_for_dataset_meta (udfs : List UDFModel) (dataset_dtype : DType) : UDFMetaModel :=
  { dataset_dtype := dataset_dtype
    input_dtype := _get_dtype udfs dataset_dtype
    device_class := "cpu" }

/-- The device-selection effect of `UDFRunner.run_for_partition` (base.py
lines 1053-1080), modelled as explicit state passing on the process-wide
CUDA device id.  The try block classifies the UDFs; when the cupy list is
non-empty it saves the current device id in `previous_id` and switches to
the configured device (`cupy.cuda.Device(device).use()`, which may itself
fail); the body (`_init_udfs`/`_run_udfs`/`_wrapup_udfs`) may fail; the
finally block restores `previous_id` whenever it was set, on success and on
every failure path alike. -/
def run_for_partition_device (udfs : List UDFModel) (device_class : String)
    (target : Nat) (useFails bodyFails : Bool) (st : Nat) :
    Except String Unit × Nat :=
  -- try block: (result, device id after the try block, saved previous_id)
  let tryOut : Except String Unit × Nat × Option Nat :=
    match udf_lists device_class udfs with
    | Except.error e => (Except.error e, st, none)
    | Except.ok (_numpy_udfs, cupy_udfs) =>
      if cupy_udfs.isEmpty then
        ((if bodyFails then Except.error "body failed" else Except.ok ()), st, none)
      else
        let previous_id := st
        if useFails then
          (Except.error "DeviceError: CUDA device selection failed", st, some previous_id)
        else
          ((if bodyFails then Except.error "body failed" else Except.ok ()),
            target, some previous_id)
  -- finally block: restore previous_id when it was populated
  match tryOut with
  | (res, stAfter, none) => (res, stAfter)
  | (res, _stAfter, some previous_id) => (res, previous_id)

/-- The yield sequence of `UDFRunner.run_for_dataset_async` (base.py lines
1144-1167), abstracted over the merged global state `σ` and the per-task
partial results `π`: the async for loop merges each arriving partial result
and yields a snapshot of the global state after each merge; the loop's else
clause, which Python runs whenever the loop exhausts its iterator without a
break, then yields one more snapshot. -/
def run_for_dataset_async {σ π : Type} (mergeStep : σ → π → σ) :
    σ → List π → List σ
  | s, [] => [s]
  | s, p :: rest =>
    let s2 := mergeStep s p
    s2 :: run_for_dataset_async mergeStep s2 rest

/-- A dataset partition as seen by task generation: its flat navigation
range (`partition.slice.get(nav_only=True)`). -/
structure PartitionModel where
  navStart : Nat
  navLen : Nat
deriving DecidableEq, Repr

/-- `UDFRunner._roi_for_partition` (base.py lines 1169-1170): restrict the
flattened ROI to the partition's nav range. -/
def _roi_for_partition (roi : List Bool) (p : PartitionModel) : List Bool :=
  (roi.drop p.navStart).take p.navLen

/-- `np.count_nonzero` on a boolean mask. -/
def count_nonzero (l : List Bool) : Nat :=
  l.countP id

/-- Modelled from the spec: `AuxBufferWrapper.new_for_partition` lives in
`libertem.common.buffers`, which is not part of the sources; per the spec,
`copy_for_partition` re-slices aux buffers to the partition and ROI, i.e.
the aux data is cut to the partition's nav range and compressed to the
ROI-selected positions when a ROI is present. -/
def aux_new_for_partition (b : AuxBuffer) (p : PartitionModel)
    (roi : Option (List Bool)) : AuxBuffer :=
  let part := (b.data.drop p.navStart).take p.navLen
  match roi with
  | none => AuxBuffer.mk part
  | some r =>
    let rp := (r.drop p.navStart).take p.navLen
    AuxBuffer.mk ((part.zip rp).filterMap (fun x => if x.2 then some x.1 else none))

/-- `UDF.copy_for_partition` (base.py lines 549-556): a fresh instance of
the same class with the aux params re-sliced to the partition and ROI. -/
def copy_for_partition (u : UDFModel) (p : PartitionModel)
    (roi : Option (List Bool)) : UDFModel :=
  { u with params := u.params.map (fun kb => (kb.1, aux_new_for_partition kb.2 p roi)) }

/-- `UDFTask` as produced by task generation (base.py lines 849-855 and
1183-1186). -/
structure UDFTaskModel where
  partition : PartitionModel
  idx : Nat
  udfs : List UDFModel
  roi : Option (List Bool)
deriving DecidableEq, Repr

/-- `UDFRunner._make_udf_tasks` (base.py lines 1172-1186): enumerate the
partitions; when a ROI is given, skip a partition whose restricted ROI has
no nonzero entry; otherwise yield one `UDFTask` carrying per-partition
copies of every UDF. -/
def _make_udf_tasks (udfs : List UDFModel) (partitions : List PartitionModel)
    (roi : Option (List Bool)) : List UDFTaskModel :=
  partitions.enum.filterMap (fun ip =>
    match roi with
    | some r =>
      if count_nonzero (_roi_for_partition r ip.2) = 0 then
        none
      else
        some (UDFTaskModel.mk ip.2 ip.1 (udfs.map (fun u => copy_for_partition u ip.2 roi)) roi)
    | none =>
      some (UDFTaskModel.mk ip.2 ip.1 (udfs.map (fun u => copy_for_partition u ip.2 roi)) roi))

/-- Python exceptions raised on the `UDFData` attribute access path. -/
inductive PyErr where
  | attributeError (msg : String)
  | keyError (msg : String)
deriving DecidableEq, Repr

/-- `UDFData` state: the underlying data dict and the current views (values
abstracted to naturals). -/
structure UDFDataModel where
  data : List (String × Nat)
  views : List (String × Nat)
deriving DecidableEq, Repr

/-- `UDFData._get_view_or_data` (base.py lines 177-183): the current view if
one is set, otherwise the raw data; `self._data[k]` raises KeyError for an
absent key. -/
def _get_view_or_data (d : UDFDataModel) (k : String) : Except PyErr Nat :=
  match d.views.lookup k with
  | some v => Except.ok v
  | none =>
    match d.data.lookup k with
    | some r => Except.ok r
    | none => Except.error (PyErr.keyError k)

/-- `UDFData.__getattr__` (base.py lines 154-160): names starting with an
underscore raise AttributeError directly; a KeyError from
`_get_view_or_data` is converted into an AttributeError. -/
def udfdata_getattr (d : UDFDataModel) (k : String) : Except PyErr Nat :=
  if k.startsWith "_" then
    Except.error (PyErr.attributeError ("no such attribute: " ++ k))
  else
    match _get_view_or_data d k with
    | Except.ok v => Except.ok v
    | Except.error (PyErr.keyError m) => Except.error (PyErr.attributeError m)
    | Except.error e => Except.error e

/-- `UDFData.get` (base.py lines 162-166): calls `__getattr__` and returns
the default only when a KeyError escapes it. -/
def udfdata_get (d : UDFDataModel) (k : String) (default : Nat) : Except PyErr Nat :=
  match udfdata_getattr d k with
  | Except.ok v => Except.ok v
  | Except.error (PyErr.keyError _) => Except.ok default
  | Except.error e => Except.error e

lemma merge_loop_ne_notImplemented (dest src : List (String × NArray)) :
    merge_loop dest src ≠ Except.error MergeErr.notImplementedErr := by
  induction dest with
  | nil => simp [merge_loop]
  | cons kd rest ih =>
    obtain ⟨k, d⟩ := kd
    simp only [merge_loop]
    cases hs : src.lookup k with
    | none => simp
    | some s =>
      simp only [check_cast]
      by_cases hc : can_cast d.dtype s.dtype
      · simp only [hc, if_pos, reduceIte]
        cases hm : merge_loop rest src with
        | ok out => simp
        | error e =>
          intro hcontra
          apply ih
          rw [hm]
          injection hcontra with h
          rw [h]
      · simp [hc]

lemma merge_loop_ok_of_safe (dest src : List (String × NArray))
    (hall : ∀ kd ∈ dest, ∃ s, src.lookup kd.1 = some s ∧ can_cast kd.2.dtype s.dtype = true) :
    merge_loop dest src = Except.ok (spec_copy dest src) := by
  induction dest with
  | nil => simp [merge_loop, spec_copy]
  | cons kd rest ih =>
    obtain ⟨k, d⟩ := kd
    obtain ⟨s, hs, hc⟩ := hall (k, d) (List.mem_cons_self _ _)
    simp only [merge_loop, hs, check_cast, hc, if_pos, reduceIte]
    rw [ih (fun x hx => hall x (List.mem_cons_of_mem _ hx))]
    simp [spec_copy, hs]

/-- C1: the default `UDF.merge` raises NotImplementedError if and only if at
least one buffer returned by `get_result_buffers` has a kind other than nav
(exactly when `requires_custom_merge` holds); for a UDF whose declared
buffers are all of kind nav, when every key of dest is present in src and
every pair passes the safe-cast check, the default merge performs the
elementwise copy `dest[k][:] = src[k]` for every key of dest. -/
theorem C1_default_merge (bufs : List (String × BufferDecl))
    (dest src : List (String × NArray)) :
    (merge bufs dest src = Except.error MergeErr.notImplementedErr ↔
      ∃ kb ∈ bufs, kb.2.kind ≠ BufferKind.nav) ∧
    ((∀ kb ∈ bufs, kb.2.kind = BufferKind.nav) →
      (∀ kd ∈ dest, ∃ s, src.lookup kd.1 = some s ∧ can_cast kd.2.dtype s.dtype = true) →
      merge bufs dest src = Except.ok (spec_copy dest src)) := by
  have hbridge : requires_custom_merge bufs = true ↔
      ∃ kb ∈ bufs, kb.2.kind ≠ BufferKind.nav := by
    simp [requires_custom_merge, List.any_eq_true]
  constructor
  · constructor
    · intro h
      by_cases hreq : requires_custom_merge bufs
      · exact hbridge.mp hreq
      · exfalso
        apply merge_loop_ne_notImplemented dest src
        rw [merge, if_neg hreq] at h
        exact h
    · intro hx
      have hreq : requires_custom_merge bufs = true := hbridge.mpr hx
      simp [merge, hreq]
  · intro hall hsafe
    have hreq : requires_custom_merge bufs = false := by
      rw [Bool.eq_false_iff]
      intro hcontra
      obtain ⟨kb, hmem, hk⟩ := hbridge.mp hcontra
      exact hk (hall kb hmem)
    rw [merge, hreq, if_neg (by simp), merge_loop_ok_of_safe dest src hsafe]

/-- C1 witness: a single nav buffer with matching float32 arrays merges into
the elementwise copy of src. -/
theorem C1_default_merge_witness :
    merge [("a", BufferDecl.mk BufferKind.nav DType.float32)]
      [("a", NArray.mk DType.float32 [0, 0])]
      [("a", NArray.mk DType.float32 [5, 6])] =
      Except.ok [("a", NArray.mk DType.float32 [5, 6])] := by
  have h := (C1_default_merge [("a", BufferDecl.mk BufferKind.nav DType.float32)]
    [("a", NArray.mk DType.float32 [0, 0])] [("a", NArray.mk DType.float32 [5, 6])]).2
    (by decide)
    (by
      intro kd hkd
      simp only [List.mem_singleton] at hkd
      subst hkd
      exact ⟨NArray.mk DType.float32 [5, 6], rfl, rfl⟩)
  rw [h]
  rfl

/-- C3 counterexample: over a stream of three merged task results, the async
dispatcher yields four snapshots, not the three the claim predicts for a
non-empty stream (the for loop's else clause always runs when the iterator
is exhausted, so the final snapshot is yielded unconditionally). -/
theorem C3_counterexample :
    ¬ ((run_for_dataset_async (fun s p => s + p) (0 : Nat) [1, 2, 3]).length = 3) := by
  decide

lemma scanl_head_cons {σ π : Type} (f : σ → π → σ) (s : σ) (l : List π) :
    List.scanl f s l = s :: (List.scanl f s l).tail := by
  cases l <;> simp [List.scanl]

/-- C3 (amended): for every run of `run_for_dataset_async`, one snapshot of
the current global result groups is yielded after each merged task, and one
final snapshot is yielded unconditionally afterwards — also (and in
particular) when the executor's result stream is empty; so a stream of n
merged tasks yields n intermediate snapshots (the scanl of the merge step
with the initial state, without its head) followed by one final snapshot
equal to the fold of all merges. -/
theorem C3_async_snapshots {σ π : Type} (mergeStep : σ → π → σ) (s : σ)
    (stream : List π) :
    run_for_dataset_async mergeStep s stream =
      (List.scanl mergeStep s stream).tail ++ [stream.foldl mergeStep s] := by
  induction stream generalizing s with
  | nil => simp [run_for_dataset_async]
  | cons p rest ih =>
    simp only [run_for_dataset_async, List.scanl, List.tail_cons, List.foldl_cons]
    rw [ih]
    conv_rhs => rw [scanl_head_cons]
    simp

/-- C5: the caller-observed CUDA device id after `run_for_partition` equals
the device id before the call on every exit path — whether UDF
classification fails, device selection fails, the body fails, or everything
succeeds. -/
theorem C5_device_restore (udfs : List UDFModel) (device_class : String)
    (target : Nat) (useFails bodyFails : Bool) (st : Nat) :
    (run_for_partition_device udfs device_class target useFails bodyFails st).2 = st := by
  unfold run_for_partition_device
  cases h : udf_lists device_class udfs with
  | error e => simp
  | ok pr =>
    obtain ⟨ns, cs⟩ := pr
    by_cases hc : cs.isEmpty <;> by_cases hu : useFails <;>
      by_cases hb : bodyFails <;> simp [hc, hu, hb]

/-- C8 counterexample: a UDF that declares `process_tile`, `process_frame`
and `process_partition` simultaneously is not refused; `get_method` silently
picks tile. -/
theorem C8_counterexample :
    get_method (UDFModel.mk [] DType.float32 [] [] true true true) = Except.ok "tile" ∧
    ∀ e, get_method (UDFModel.mk [] DType.float32 [] [] true true true) ≠
      Except.error e := by
  constructor
  · rfl
  · intro e h
    simp [get_method] at h

/-- C8 (amended): `get_method` raises an error exactly for a UDF that
declares none of `process_tile`, `process_frame`, `process_partition`; when
more than one is declared it silently picks one at registration time, in the
priority order tile, then frame, then partition. -/
theorem C8_get_method (u : UDFModel) :
    ((u.hasTile = false ∧ u.hasFrame = false ∧ u.hasPartition = false) ↔
      ∃ e, get_method u = Except.error e) ∧
    (u.hasTile = true → get_method u = Except.ok "tile") ∧
    (u.hasTile = false → u.hasFrame = true → get_method u = Except.ok "frame") ∧
    (u.hasTile = false → u.hasFrame = false → u.hasPartition = true →
      get_method u = Except.ok "partition") := by
  unfold get_method
  by_cases h1 : u.hasTile <;> by_cases h2 : u.hasFrame <;>
    by_cases h3 : u.hasPartition <;> simp [h1, h2, h3]

/-- C8 witness: a UDF declaring only `process_frame` is dispatched as
frame. -/
theorem C8_get_method_witness :
    get_method (UDFModel.mk [] DType.float32 [] [] false true false) =
      Except.ok "frame" :=
  (C8_get_method (UDFModel.mk [] DType.float32 [] [] false true false)).2.2.1 rfl rfl

/-- C10: for a `UDFData` instance and a key absent from its data dict (and
hence from the views, which are only ever populated for data keys),
`get(k, default)` raises AttributeError instead of returning the default:
`__getattr__` converts the underlying KeyError into an AttributeError, which
the `except KeyError` clause inside `get` does not catch. -/
theorem C10_udfdata_get (d : UDFDataModel) (k : String) (default : Nat)
    (hdata : d.data.lookup k = none) (hviews : d.views.lookup k = none) :
    (∃ m, udfdata_get d k default = Except.error (PyErr.attributeError m)) ∧
    udfdata_get d k default ≠ Except.ok default := by
  have hmain : ∃ m, udfdata_get d k default = Except.error (PyErr.attributeError m) := by
    by_cases h : k.startsWith "_"
    · exact ⟨"no such attribute: " ++ k, by simp [udfdata_get, udfdata_getattr, h]⟩
    · exact ⟨k, by
        simp [udfdata_get, udfdata_getattr, h, _get_view_or_data, hdata, hviews]⟩
  refine ⟨hmain, ?_⟩
  obtain ⟨m, hm⟩ := hmain
  rw [hm]
  simp

/-- C10 witness: getting the absent key b with default 7 raises
AttributeError. -/
theorem C10_udfdata_get_witness :
    (∃ m, udfdata_get (UDFDataModel.mk [("a", 1)] []) "b" 7 =
      Except.error (PyErr.attributeError m)) ∧
    udfdata_get (UDFDataModel.mk [("a", 1)] []) "b" 7 ≠ Except.ok 7 :=
  C10_udfdata_get (UDFDataModel.mk [("a", 1)] []) "b" 7 (by decide) (by decide)

lemma udf_lists_cuda_ok (l : List UDFModel)
    (h : ∀ u ∈ l, "cuda" ∈ u.backends ∨ "cupy" ∈ u.backends) :
    udf_lists_cuda l = Except.ok
      (l.filter (fun u => decide ("cuda" ∈ u.backends)),
       l.filter (fun u => decide ("cuda" ∉ u.backends) && decide ("cupy" ∈ u.backends))) := by
  induction l with
  | nil => rfl
  | cons u rest ih =>
    have hrest := ih (fun x hx => h x (List.mem_cons_of_mem _ hx))
    by_cases hc : "cuda" ∈ u.backends
    · simp [udf_lists_cuda, hc, hrest, List.filter_cons]
    · have hcp : "cupy" ∈ u.backends :=
        (h u (List.mem_cons_self _ _)).resolve_left hc
      simp [udf_lists_cuda, hc, hcp, hrest, List.filter_cons]

lemma udf_lists_cuda_err (l : List UDFModel)
    (h : ∃ u ∈ l, "cuda" ∉ u.backends ∧ "cupy" ∉ u.backends) :
    ∃ e, udf_lists_cuda l = Except.error e := by
  induction l with
  | nil => simp at h
  | cons u rest ih =>
    obtain ⟨v, hv, hv1, hv2⟩ := h
    rcases List.mem_cons.mp hv with rfl | hvrest
    · exact ⟨"UDF backends are not supported on CUDA", by simp [udf_lists_cuda, hv1, hv2]⟩
    · obtain ⟨e, he⟩ := ih ⟨v, hvrest, hv1, hv2⟩
      by_cases hc : "cuda" ∈ u.backends
      · exact ⟨e, by simp [udf_lists_cuda, hc, he]⟩
      · by_cases hcp : "cupy" ∈ u.backends
        · exact ⟨e, by simp [udf_lists_cuda, hc, hcp, he]⟩
        · exact ⟨"UDF backends are not supported on CUDA",
            by simp [udf_lists_cuda, hc, hcp]⟩

/-- C2: `_udf_lists` splits the UDF set by the worker's device class: on a
cuda worker, every UDF whose backends include cuda goes to the host-mode
(numpy) list, every remaining UDF whose backends include cupy goes to the
device-mode (cupy) list, and a UDF with neither is rejected with an error;
on a cpu worker every UDF must include the numpy backend (otherwise an
error) and the device-mode list is empty; an unknown device class is
rejected with an error. -/
theorem C2_udf_lists (udfs : List UDFModel) :
    ((∀ u ∈ udfs, "cuda" ∈ u.backends ∨ "cupy" ∈ u.backends) →
      udf_lists "cuda" udfs = Except.ok
        (udfs.filter (fun u => decide ("cuda" ∈ u.backends)),
         udfs.filter (fun u => decide ("cuda" ∉ u.backends) && decide ("cupy" ∈ u.backends)))) ∧
    ((∃ u ∈ udfs, "cuda" ∉ u.backends ∧ "cupy" ∉ u.backends) →
      ∃ e, udf_lists "cuda" udfs = Except.error e) ∧
    ((∀ u ∈ udfs, "numpy" ∈ u.backends) →
      udf_lists "cpu" udfs = Except.ok (udfs, [])) ∧
    ((∃ u ∈ udfs, "numpy" ∉ u.backends) →
      ∃ e, udf_lists "cpu" udfs = Except.error e) ∧
    (∀ dc, dc ≠ "cpu" → dc ≠ "cuda" → ∃ e, udf_lists dc udfs = Except.error e) := by
  have hne : ("cpu" : String) ≠ "cuda" := by decide
  refine ⟨?_, ?_, ?_, ?_, ?_⟩
  · intro h
    simp [udf_lists, udf_lists_cuda_ok udfs h]
  · intro h
    obtain ⟨e, he⟩ := udf_lists_cuda_err udfs h
    exact ⟨e, by simp [udf_lists, he]⟩
  · intro h
    have hall : udfs.all (fun u => decide ("numpy" ∈ u.backends)) = true := by
      rw [List.all_eq_true]
      intro u hu
      simpa using h u hu
    simp [udf_lists, hne, hall]
  · intro h
    obtain ⟨v, hv, hv1⟩ := h
    have hall : udfs.all (fun u => decide ("numpy" ∈ u.backends)) = false := by
      rw [Bool.eq_false_iff]
      intro hcontra
      exact hv1 (by simpa using List.all_eq_true.mp hcontra v hv)
    exact ⟨"assertion failed: not all UDFs support numpy", by simp [udf_lists, hne, hall]⟩
  · intro dc h1 h2
    exact ⟨"Unknown device class, supported are cpu and cuda",
      by simp [udf_lists, h1, h2]⟩

/-- C2 witness: on a cuda worker, a cuda-capable UDF lands in the host list
and a cupy-only UDF lands in the device list. -/
theorem C2_udf_lists_witness :
    udf_lists "cuda"
      [UDFModel.mk ["cuda"] DType.float32 [] [] true false false,
       UDFModel.mk ["cupy"] DType.float32 [] [] true false false] =
    Except.ok
      ([UDFModel.mk ["cuda"] DType.float32 [] [] true false false],
       [UDFModel.mk ["cupy"] DType.float32 [] [] true false false]) := by
  have h := (C2_udf_lists
    [UDFModel.mk ["cuda"] DType.float32 [] [] true false false,
     UDFModel.mk ["cupy"] DType.float32 [] [] true false false]).1 (by decide)
  rw [h]
  rfl

/-- C9: on a cuda worker, a UDF whose backends include both cuda and cupy is
placed in the host-mode (numpy) list and not in the device-mode (cupy) list,
because membership of cuda is tested before membership of cupy. -/
theorem C9_cuda_before_cupy (udfs hostList devList : List UDFModel) (u : UDFModel)
    (hrun : udf_lists "cuda" udfs = Except.ok (hostList, devList))
    (hu : u ∈ udfs) (hcuda : "cuda" ∈ u.backends) (hcupy : "cupy" ∈ u.backends) :
    u ∈ hostList ∧ u ∉ devList := by
  have hall : ∀ v ∈ udfs, "cuda" ∈ v.backends ∨ "cupy" ∈ v.backends := by
    by_contra hno
    push_neg at hno
    obtain ⟨v, hv, h1, h2⟩ := hno
    obtain ⟨e, he⟩ := udf_lists_cuda_err udfs ⟨v, hv, h1, h2⟩
    rw [udf_lists, if_pos rfl, he] at hrun
    cases hrun
  have heq := udf_lists_cuda_ok udfs hall
  rw [udf_lists, if_pos rfl, heq] at hrun
  injection hrun with hpair
  have hhost : hostList = udfs.filter (fun v => decide ("cuda" ∈ v.backends)) :=
    (congrArg Prod.fst hpair).symm
  have hdev : devList =
      udfs.filter (fun v => decide ("cuda" ∉ v.backends) && decide ("cupy" ∈ v.backends)) :=
    (congrArg Prod.snd hpair).symm
  subst hhost hdev
  constructor
  · exact List.mem_filter.mpr ⟨hu, by simpa using hcuda⟩
  · intro hmem
    have := (List.mem_filter.mp hmem).2
    simp [hcuda] at this

/-- C9 witness: a UDF with backends cuda and cupy ends up in the host list
and not in the device list. -/
theorem C9_cuda_before_cupy_witness :
    UDFModel.mk ["cuda", "cupy"] DType.float32 [] [] true false false ∈
      [UDFModel.mk ["cuda", "cupy"] DType.float32 [] [] true false false] ∧
    UDFModel.mk ["cuda", "cupy"] DType.float32 [] [] true false false ∉
      ([] : List UDFModel) :=
  C9_cuda_before_cupy
    [UDFModel.mk ["cuda", "cupy"] DType.float32 [] [] true false false]
    [UDFModel.mk ["cuda", "cupy"] DType.float32 [] [] true false false]
    [] (UDFModel.mk ["cuda", "cupy"] DType.float32 [] [] true false false)
    (by rfl) (by simp) (by decide) (by decide)

/-- C4: `UDFTask.get_resources` resolves the intersection of all its UDFs'
backend sets, narrowed by the dispatcher-level backends filter when one is
given: an intersection containing only the CPU backend (numpy) maps to
CPU 1 and compute 1; an intersection containing numpy together with cuda or
cupy maps to compute 1 alone; a non-empty intersection containing only cuda
and/or cupy maps to CUDA 1 and compute 1; an empty intersection raises a
fatal configuration error. -/
theorem C4_get_resources (u0 : UDFModel) (rest : List UDFModel)
    (limit : Option (List String)) :
    (narrowed_backends u0 rest limit = {"numpy"} →
      get_resources (u0 :: rest) limit = Except.ok [("CPU", 1), ("compute", 1)]) ∧
    ("numpy" ∈ narrowed_backends u0 rest limit →
      ("cuda" ∈ narrowed_backends u0 rest limit ∨
        "cupy" ∈ narrowed_backends u0 rest limit) →
      get_resources (u0 :: rest) limit = Except.ok [("compute", 1)]) ∧
    (narrowed_backends u0 rest limit ≠ ∅ →
      narrowed_backends u0 rest limit ⊆ {"cuda", "cupy"} →
      get_resources (u0 :: rest) limit = Except.ok [("CUDA", 1), ("compute", 1)]) ∧
    (narrowed_backends u0 rest limit = ∅ →
      ∃ e, get_resources (u0 :: rest) limit = Except.error e) := by
  refine ⟨?_, ?_, ?_, ?_⟩
  · intro h
    have h1 : ("cupy" : String) ∉ ({"numpy"} : Finset String) := by decide
    have h2 : ("cuda" : String) ∉ ({"numpy"} : Finset String) := by decide
    have h3 : ("numpy" : String) ∈ ({"numpy"} : Finset String) := by decide
    have h4 : ({"numpy"} : Finset String) ≠ ∅ := by decide
    simp only [get_resources, h]
    rw [if_neg h4, if_neg (by simp [h1, h2]), if_pos h3]
  · intro hn hcc
    have hne : narrowed_backends u0 rest limit ≠ ∅ := by
      intro hcontra
      rw [hcontra] at hn
      exact absurd hn (Finset.not_mem_empty _)
    simp only [get_resources]
    rw [if_neg hne, if_pos ⟨hn, hcc.symm⟩]
  · intro hne hsub
    have hn : ("numpy" : String) ∉ narrowed_backends u0 rest limit := by
      intro hcontra
      have := hsub hcontra
      simp at this
    obtain ⟨x, hx⟩ := Finset.nonempty_iff_ne_empty.mpr hne
    have hcc : ("cupy" : String) ∈ narrowed_backends u0 rest limit ∨
        ("cuda" : String) ∈ narrowed_backends u0 rest limit := by
      have hx2 := hsub hx
      simp only [Finset.mem_insert, Finset.mem_singleton] at hx2
      rcases hx2 with rfl | rfl
      · right; exact hx
      · left; exact hx
    simp only [get_resources]
    rw [if_neg hne, if_neg (by intro hcontra; exact hn hcontra.1), if_neg hn,
      if_pos hcc]
  · intro h
    exact ⟨"There is no common supported UDF backend", by simp [get_resources, h]⟩

/-- C4 witness: a single numpy-only UDF with no dispatcher filter requests
CPU 1 and compute 1. -/
theorem C4_get_resources_witness :
    get_resources [UDFModel.mk ["numpy"] DType.float32 [] [] true false false] none =
      Except.ok [("CPU", 1), ("compute", 1)] :=
  (C4_get_resources (UDFModel.mk ["numpy"] DType.float32 [] [] true false false)
    [] none).1 (by decide)

lemma result_type_comm (a b : DType) : result_type a b = result_type b a := by
  revert a b
  decide

set_option maxHeartbeats 1000000 in
lemma result_type_assoc (a b c : DType) :
    result_type (result_type a b) c = result_type a (result_type b c) := by
  revert a b c
  decide

lemma foldr_result_type_swap (a d : DType) (l : List DType) :
    l.foldr result_type (result_type a d) = result_type a (l.foldr result_type d) := by
  induction l with
  | nil => rfl
  | cons x l ih =>
    simp only [List.foldr_cons, ih]
    rw [← result_type_assoc, result_type_comm x a, result_type_assoc]

/-- C6: for every list of UDFs and every starting dtype d, the computed
input dtype `_get_dtype` equals the fold of `numpy.result_type` over each
UDF's `get_preferred_input_dtype()` starting from d, and this same
computation supplies the input dtype of the meta built per partition by
`_init_udfs` and of the meta built at dispatch setup by
`_prepare_run_for_dataset`. -/
theorem C6_input_dtype (udfs : List UDFModel) (d : DType) (dc : String) :
    (_get_dtype udfs d =
      (udfs.map (fun u => u.preferred_input_dtype)).foldr result_type d) ∧
    (_init_udfs_meta udfs d dc).input_dtype = _get_dtype udfs d ∧
    (_prepare_for_dataset_meta udfs d).input_dtype = _get_dtype udfs d := by
  refine ⟨?_, rfl, rfl⟩
  induction udfs generalizing d with
  | nil => rfl
  | cons u rest ih =>
    show _get_dtype rest (result_type u.preferred_input_dtype d) = _
    rw [ih, List.map_cons, List.foldr_cons, foldr_result_type_swap]

lemma filterMap_if_eq_filter_map {α β : Type} (p : α → Bool) (g : α → β) (l : List α) :
    l.filterMap (fun a => if p a then some (g a) else none) = (l.filter p).map g := by
  induction l with
  | nil => rfl
  | cons a l ih => by_cases h : p a <;> simp [h, ih, List.filter_cons]

/-- C7: task generation yields no task for a partition whose restriction of
the ROI has popcount 0, and yields exactly one task for every other
partition, in partition order, each task carrying a per-partition copy of
every UDF made with `copy_for_partition`; with no ROI, every partition gets
exactly one task. -/
theorem C7_make_udf_tasks (udfs : List UDFModel) (parts : List PartitionModel)
    (roi : Option (List Bool)) :
    (_make_udf_tasks udfs parts roi =
      (parts.enum.filter (fun ip =>
        match roi with
        | some rr => decide (count_nonzero (_roi_for_partition rr ip.2) ≠ 0)
        | none => true)).map
        (fun ip => UDFTaskModel.mk ip.2 ip.1
          (udfs.map (fun u => copy_for_partition u ip.2 roi)) roi)) ∧
    (_make_udf_tasks udfs parts none).length = parts.length := by
  have hmain : ∀ (ro : Option (List Bool)),
      _make_udf_tasks udfs parts ro =
      (parts.enum.filter (fun ip =>
        match ro with
        | some rr => decide (count_nonzero (_roi_for_partition rr ip.2) ≠ 0)
        | none => true)).map
        (fun ip => UDFTaskModel.mk ip.2 ip.1
          (udfs.map (fun u => copy_for_partition u ip.2 ro)) ro) := by
    intro ro
    cases ro with
    | none =>
      unfold _make_udf_tasks
      rw [List.filter_true]
      induction parts.enum with
      | nil => rfl
      | cons ip l ih => simp [ih]
    | some rr =>
      unfold _make_udf_tasks
      have := filterMap_if_eq_filter_map
        (fun ip : Nat × PartitionModel =>
          decide (count_nonzero (_roi_for_partition rr ip.2) ≠ 0))
        (fun ip : Nat × PartitionModel => UDFTaskModel.mk ip.2 ip.1
          (udfs.map (fun u => copy_for_partition u ip.2 (some rr))) (some rr))
        parts.enum
      rw [← this]
      congr 1
      funext ip
      by_cases h : count_nonzero (_roi_for_partition rr ip.2) = 0 <;> simp [h]
  refine ⟨hmain roi, ?_⟩
  rw [hmain none, List.filter_true, List.length_map, List.enum_length]
